import Mathlib

/-!
Shallow embedding of the TubeThumb AI creator studio core: the session
handlers of the CreatorStudio component and the generation-request builder
of the service layer, together with theorems settling the spec claims.
-/

namespace TubeThumb

/-- Quality tiers, from the ImageSize enum of the types module. -/
inductive ImageSize
  | size1K
  | size2K
  | size4K
  deriving DecidableEq, Repr

/-- Output formats, from the VideoFormat union of the types module. -/
inductive VideoFormat
  | longForm
  | shorts
  | facebook
  deriving DecidableEq, Repr

/-- Workflow flag, from the LoadingState union of the types module. -/
inductive LoadingState
  | idle
  | optimizingTitle
  | generatingImage
  | editingImage
  deriving DecidableEq, Repr

/-- A generated artifact, from the GeneratedImage interface. -/
structure GeneratedImage where
  id : String
  data : String
  mimeType : String
  prompt : String
  timestamp : Nat
  format : VideoFormat
  deriving DecidableEq, Repr

/-- An uploaded image held in component state: a display name plus base64 data. -/
structure NamedImage where
  name : String
  data : String
  deriving DecidableEq, Repr

/-- The CreatorStudio component state: one field per useState hook. -/
structure StudioState where
  title : String
  optimizedTitles : List String
  prompt : String
  imageSize : ImageSize
  videoFormat : VideoFormat
  headshot : Option NamedImage
  logo : Option NamedImage
  referenceImages : List NamedImage
  brandColors : String
  generatedImage : Option GeneratedImage
  editPrompt : String
  loadingState : LoadingState
  error : Option String
  deriving DecidableEq, Repr

/-- Executable model of the JavaScript string trim method: drop leading and
trailing whitespace characters. -/
def jsTrim (s : String) : String :=
  String.mk
    (((s.data.dropWhile Char.isWhitespace).reverse.dropWhile
        Char.isWhitespace).reverse)

/-- Outcome of an awaited image-service call: the promise resolves with a
base64 string or null (success), or rejects (failure). -/
inductive CallOutcome
  | success (result : Option String)
  | failure
  deriving DecidableEq, Repr

/-- Outcome of the awaited optimizeTitle call: a list of suggestions, or a
rejection. -/
inductive TitleOutcome
  | success (suggestions : List String)
  | failure
  deriving DecidableEq, Repr

/-- Embedding of handleTitleOptimize: guard on the trimmed title, set the
loading flag, clear the error, await the service, reconcile, and return to
idle in the finally block. Returns the new state and whether the external
service was called. -/
def handleTitleOptimize (s : StudioState) (outcome : TitleOutcome) :
    StudioState × Bool :=
  if jsTrim s.title = "" then (s, false)
  else
    let s1 := { s with loadingState := LoadingState.optimizingTitle,
                       error := none }
    match outcome with
    | TitleOutcome.success suggestions =>
        ({ s1 with optimizedTitles := suggestions,
                   loadingState := LoadingState.idle }, true)
    | TitleOutcome.failure =>
        ({ s1 with error := some "Failed to optimize title. Please try again.",
                   loadingState := LoadingState.idle }, true)

/-- Embedding of handleGenerate. The now argument models Date.now at the
moment the response is reconciled. Returns the new state and whether the
external service was called. -/
def handleGenerate (s : StudioState) (outcome : CallOutcome) (now : Nat) :
    StudioState × Bool :=
  if jsTrim s.prompt = "" then
    ({ s with error := some "Please enter a description or story for the image." },
     false)
  else
    let s1 := { s with loadingState := LoadingState.generatingImage,
                       error := none }
    match outcome with
    | CallOutcome.success (some resultBase64) =>
        ({ s1 with
            generatedImage := some
              { id := toString now
                data := resultBase64
                mimeType := "image/png"
                prompt := s.prompt
                timestamp := now
                format := s.videoFormat }
            loadingState := LoadingState.idle }, true)
    | CallOutcome.success none =>
        ({ s1 with error := some "No image generated."
                   loadingState := LoadingState.idle }, true)
    | CallOutcome.failure =>
        ({ s1 with
            error := some "Generation failed. Try a simpler prompt or fewer references."
            loadingState := LoadingState.idle }, true)

/-- Embedding of handleEdit. Guard: an artifact must exist and the trimmed
edit prompt must be non-empty. On a non-null result the artifact keeps all
fields except data and id, and the edit prompt is cleared; on a null result
nothing is reconciled; on failure the error is set. Returns the new state
and whether the external service was called. -/
def handleEdit (s : StudioState) (outcome : CallOutcome) (now : Nat) :
    StudioState × Bool :=
  match s.generatedImage with
  | none => (s, false)
  | some img =>
      if jsTrim s.editPrompt = "" then (s, false)
      else
        let s1 := { s with loadingState := LoadingState.editingImage,
                           error := none }
        match outcome with
        | CallOutcome.success (some resultBase64) =>
            ({ s1 with
                generatedImage := some
                  { img with data := resultBase64, id := toString now }
                editPrompt := ""
                loadingState := LoadingState.idle }, true)
        | CallOutcome.success none =>
            ({ s1 with loadingState := LoadingState.idle }, true)
        | CallOutcome.failure =>
            ({ s1 with error := some "Editing failed."
                       loadingState := LoadingState.idle }, true)

/-- A concrete studio state used by witnesses. -/
def baseState : StudioState :=
  { title := "My Trip to Japan"
    optimizedTitles := []
    prompt := "sunset over mountains"
    imageSize := ImageSize.size1K
    videoFormat := VideoFormat.longForm
    headshot := none
    logo := none
    referenceImages := []
    brandColors := ""
    generatedImage := none
    editPrompt := ""
    loadingState := LoadingState.idle
    error := none }

/-- One element of the contents parts array sent to the service: either a
text part or an inlineData part carrying a mime type and base64 data. -/
inductive Part
  | text (s : String)
  | inlineData (mimeType : String) (data : String)
  deriving DecidableEq, Repr

/-- The structured generation request assembled by generateThumbnail before
the service call: the parts array plus the image configuration. -/
structure GenerationRequest where
  parts : List Part
  imageSize : ImageSize
  aspectRatio : String
  deriving DecidableEq, Repr

/-- The textPrompt string assembled by generateThumbnail, including the
brand-colors augmentation, exactly as concatenated in the source. -/
def generationPromptText (prompt title : String) (format : VideoFormat)
    (brandColors : String) : String :=
  let isShorts := format = VideoFormat.shorts
  let isFacebook := format = VideoFormat.facebook
  let textPrompt :=
    if isFacebook then
      let t := "Create a high-quality image for a Facebook post."
      let t := if title ≠ "" then
          t ++ " The headline or text overlay context is \"" ++ title ++ "\"."
        else t
      let t := t ++ " \n\nStory/Context: " ++ prompt
      let t := t ++ " \n\nFormat: Square 1:1. Composition balanced for social feed."
      t ++ " \n\nStyle: Natural, authentic, lifestyle photography or clean editorial graphic. Less aggressive than a YouTube thumbnail. Inviting, relatable, and story-driven."
    else
      let t := "Create a high-quality YouTube " ++
        (if isShorts then "Shorts" else "") ++ " thumbnail."
      let t := if title ≠ "" then
          t ++ " The video title is \"" ++ title ++
            "\". Include this text or related engaging typography in the thumbnail."
        else t
      let t := t ++ " \n\nVisual Description: " ++ prompt
      let t := if isShorts then
          t ++ " \n\nFormat: Vertical 9:16. Composition must be centered and optimized for mobile full-screen viewing. Keep key visual elements within the safe zone (avoiding top/bottom UI areas). Bold, readable text."
        else
          t ++ " \n\nFormat: Horizontal 16:9. Cinematic composition, rule of thirds."
      t ++ " \n\nStyle: High contrast, vibrant colors, expressive facial expressions (if people are present), clear focal point. Professional YouTuber style."
  if brandColors ≠ "" then
    textPrompt ++ " \n\nColor Palette: Use these specific brand colors: " ++
      brandColors ++ ". Ensure they are dominant or used as accents to maintain brand identity."
  else textPrompt

/-- One step of the forEach loop over enumerated reference images: push the
inlineData part and its caption with the 1-based index. -/
def refPartsStep (acc : List Part) (p : Nat × String) : List Part :=
  acc ++ [Part.inlineData "image/png" p.2,
    Part.text ("Reference style/composition from image #" ++
      toString (p.1 + 1) ++ ".")]

/-- Embedding of the request-assembly portion of generateThumbnail: aspect
ratio from the format, the textPrompt, then the parts array in source
order — text prompt, optional headshot pair, optional logo pair, then the
enumerated reference pairs. -/
def generateThumbnailRequest (prompt title : String) (size : ImageSize)
    (format : VideoFormat) (headshot : Option String)
    (referenceImages : List String) (logo : Option String)
    (brandColors : String) : GenerationRequest :=
  let isShorts := format = VideoFormat.shorts
  let isFacebook := format = VideoFormat.facebook
  let aspectRatio := "16:9"
  let aspectRatio := if isShorts then "9:16" else aspectRatio
  let aspectRatio := if isFacebook then "1:1" else aspectRatio
  let textPrompt := generationPromptText prompt title format brandColors
  let parts : List Part := [Part.text textPrompt]
  let parts :=
    match headshot with
    | some h =>
        let subjectTerm := if isFacebook then "image" else "thumbnail"
        parts ++ [Part.inlineData "image/png" h,
          Part.text ("Use the person in this image as the main subject in the " ++
            subjectTerm ++ ". Integrate them naturally matching the lighting and style.")]
    | none => parts
  let parts :=
    match logo with
    | some l =>
        parts ++ [Part.inlineData "image/png" l,
          Part.text "Integrate this logo into the image. Place it clearly (e.g. corner or branding area) without obstructing the main subject."]
    | none => parts
  let parts := (List.enumFrom 0 referenceImages).foldl refPartsStep parts
  { parts := parts, imageSize := size, aspectRatio := aspectRatio }

/-- The aspect ratio the spec assigns to each output format: wide to 16:9,
vertical to 9:16, square to 1:1. -/
def specAspectRatio : VideoFormat → String
  | VideoFormat.longForm => "16:9"
  | VideoFormat.shorts => "9:16"
  | VideoFormat.facebook => "1:1"

/-- The subject-image caption, with post versus thumbnail terminology
selected by the output format. -/
def specSubjectCaption (format : VideoFormat) : String :=
  "Use the person in this image as the main subject in the " ++
    (if format = VideoFormat.facebook then "image" else "thumbnail") ++
    ". Integrate them naturally matching the lighting and style."

/-- The logo caption instructing non-obstructive placement. -/
def specLogoCaption : String :=
  "Integrate this logo into the image. Place it clearly (e.g. corner or branding area) without obstructing the main subject."

/-- The reference-image part sequence as the spec words it: each reference
in order, captioned with its 1-based position N among present references.
The first argument is the caption number of the head reference. -/
def specRefParts : Nat → List String → List Part
  | _, [] => []
  | n, r :: rs =>
      Part.inlineData "image/png" r ::
        Part.text ("Reference style/composition from image #" ++
          toString n ++ ".") ::
        specRefParts (n + 1) rs

/-- The attachment sequence as the spec words it: the subject pair if
present, then the logo pair if present, then the references numbered from
one over present references only. -/
def specAttachmentParts (format : VideoFormat) (headshot : Option String)
    (logo : Option String) (referenceImages : List String) : List Part :=
  (match headshot with
   | some h => [Part.inlineData "image/png" h,
       Part.text (specSubjectCaption format)]
   | none => []) ++
  (match logo with
   | some l => [Part.inlineData "image/png" l, Part.text specLogoCaption]
   | none => []) ++
  specRefParts 1 referenceImages

/-- The disabled condition of the generate button in the component markup:
the workflow is not idle or the prompt is the empty string. -/
def generateButtonDisabled (s : StudioState) : Bool :=
  decide (s.loadingState ≠ LoadingState.idle) || decide (s.prompt = "")

/-- The generate trigger as seen from the UI boundary: a click reaches
handleGenerate only when the button is enabled. -/
def triggerGenerate (s : StudioState) (outcome : CallOutcome) (now : Nat) :
    StudioState × Bool :=
  if generateButtonDisabled s then (s, false)
  else handleGenerate s outcome now

/-- A sample artifact used by witnesses and counterexamples. -/
def sampleArtifact : GeneratedImage :=
  { id := "1"
    data := "ORIGBYTES"
    mimeType := "image/png"
    prompt := "sunset over mountains"
    timestamp := 5
    format := VideoFormat.longForm }

/-- A concrete state holding an artifact and a pending edit instruction. -/
def editState : StudioState :=
  { baseState with
      generatedImage := some sampleArtifact
      editPrompt := "add retro filter" }

/-- Folding the reference step over the list enumerated from k appends the
spec reference sequence numbered from k plus one. -/
theorem foldl_refPartsStep (refs : List String) :
    ∀ (k : Nat) (acc : List Part),
      (List.enumFrom k refs).foldl refPartsStep acc =
        acc ++ specRefParts (k + 1) refs := by
  induction refs with
  | nil => intro k acc; simp [List.enumFrom, specRefParts]
  | cons r rs ih =>
      intro k acc
      simp [List.enumFrom, List.foldl, refPartsStep, specRefParts,
        ih (k + 1), List.append_assoc]

/-- C3: with an empty or whitespace-only prompt, triggering generation sets
exactly the validation message, makes no service call, and leaves every
other field of the state — the loading flag (hence Idle stays Idle) and
the artifact included — unchanged. -/
theorem handleGenerate_empty_prompt (s : StudioState)
    (h : jsTrim s.prompt = "") (outcome : CallOutcome) (now : Nat) :
    handleGenerate s outcome now =
      ({ s with error := some "Please enter a description or story for the image." },
        false) := by
  simp [handleGenerate, h]

/-- Witness for C3 at a whitespace-only prompt. -/
theorem handleGenerate_empty_prompt_witness :
    handleGenerate { baseState with prompt := "   " } CallOutcome.failure 7 =
      ({ baseState with
          prompt := "   "
          error := some "Please enter a description or story for the image." },
        false) :=
  handleGenerate_empty_prompt { baseState with prompt := "   " } (by decide)
    CallOutcome.failure 7

/-- C4: the aspect ratio of the built generation request is a function of
the output format alone — wide maps to 16:9, vertical to 9:16, square to
1:1 — independent of prompt, title, quality tier and all image inputs. -/
theorem aspectRatio_function_of_format (prompt title : String)
    (size : ImageSize) (format : VideoFormat) (headshot : Option String)
    (referenceImages : List String) (logo : Option String)
    (brandColors : String) :
    (generateThumbnailRequest prompt title size format headshot
        referenceImages logo brandColors).aspectRatio =
      specAspectRatio format := by
  cases format <;> rfl

/-- C5: the parts array of the built request is the text prompt followed by
exactly the spec attachment sequence: the subject pair if present, then the
logo pair if present, then each reference in input order captioned with its
1-based position among present references. -/
theorem parts_attachment_ordering (prompt title : String) (size : ImageSize)
    (format : VideoFormat) (headshot : Option String)
    (referenceImages : List String) (logo : Option String)
    (brandColors : String) :
    (generateThumbnailRequest prompt title size format headshot
        referenceImages logo brandColors).parts =
      Part.text (generationPromptText prompt title format brandColors) ::
        specAttachmentParts format headshot logo referenceImages := by
  cases headshot <;> cases logo <;>
    simp [generateThumbnailRequest, specAttachmentParts, specSubjectCaption,
      specLogoCaption, foldl_refPartsStep]

/-- C6: request building is deterministic: building twice from one input
tuple yields identical prompt text, attachment parts, and image
configuration. The builder takes no clock or randomness; the Date.now ids
appear only in the session handlers, modelled there by the explicit now
argument. -/
theorem generateThumbnailRequest_deterministic (prompt title : String)
    (size : ImageSize) (format : VideoFormat) (headshot : Option String)
    (referenceImages : List String) (logo : Option String)
    (brandColors : String) :
    generateThumbnailRequest prompt title size format headshot
        referenceImages logo brandColors =
      generateThumbnailRequest prompt title size format headshot
        referenceImages logo brandColors :=
  rfl

/-- C7: with a non-empty prompt, a successful generation returning bytes B
installs a single new artifact with data B, the currently selected format,
mime type image/png, the current prompt, and an id freshly generated from
the completion clock; the resulting artifact is the same whatever artifact
was previously held, so the old one is fully replaced with no merge. -/
theorem handleGenerate_success_replaces (s : StudioState)
    (h : ¬ jsTrim s.prompt = "") (b : String) (now : Nat) :
    (handleGenerate s (CallOutcome.success (some b)) now).1.generatedImage =
      some { id := toString now, data := b, mimeType := "image/png",
             prompt := s.prompt, timestamp := now, format := s.videoFormat } ∧
    ∀ prev : Option GeneratedImage,
      (handleGenerate { s with generatedImage := prev }
          (CallOutcome.success (some b)) now).1.generatedImage =
        some { id := toString now, data := b, mimeType := "image/png",
               prompt := s.prompt, timestamp := now,
               format := s.videoFormat } := by
  constructor
  · simp [handleGenerate, h]
  · intro prev
    simp [handleGenerate, h]

/-- Witness for C7: a fresh generation over a previously held artifact. -/
theorem handleGenerate_success_replaces_witness :
    (handleGenerate baseState (CallOutcome.success (some "NEWBYTES")) 7).1.generatedImage =
      some { id := toString 7, data := "NEWBYTES", mimeType := "image/png",
             prompt := baseState.prompt, timestamp := 7,
             format := baseState.videoFormat } ∧
    (handleGenerate { baseState with generatedImage := some sampleArtifact }
        (CallOutcome.success (some "NEWBYTES")) 7).1.generatedImage =
      some { id := toString 7, data := "NEWBYTES", mimeType := "image/png",
             prompt := baseState.prompt, timestamp := 7,
             format := baseState.videoFormat } :=
  ⟨(handleGenerate_success_replaces baseState (by decide) "NEWBYTES" 7).1,
    (handleGenerate_success_replaces baseState (by decide) "NEWBYTES" 7).2
      (some sampleArtifact)⟩

/-- C8: whenever one of the three handlers actually calls the external
service, it leaves the loading flag idle on completion, for every outcome
— success, null result, or raised error. -/
theorem handlers_return_to_idle (s : StudioState) (u : TitleOutcome)
    (o o2 : CallOutcome) (now now2 : Nat) :
    ((handleTitleOptimize s u).2 = true →
      (handleTitleOptimize s u).1.loadingState = LoadingState.idle) ∧
    ((handleGenerate s o now).2 = true →
      (handleGenerate s o now).1.loadingState = LoadingState.idle) ∧
    ((handleEdit s o2 now2).2 = true →
      (handleEdit s o2 now2).1.loadingState = LoadingState.idle) := by
  refine ⟨?_, ?_, ?_⟩
  · by_cases h : jsTrim s.title = ""
    · simp [handleTitleOptimize, h]
    · cases u <;> simp [handleTitleOptimize, h]
  · by_cases h : jsTrim s.prompt = ""
    · simp [handleGenerate, h]
    · cases o with
      | success r => cases r <;> simp [handleGenerate, h]
      | failure => simp [handleGenerate, h]
  · cases hg : s.generatedImage with
    | none => simp [handleEdit, hg]
    | some img =>
        by_cases h : jsTrim s.editPrompt = ""
        · simp [handleEdit, hg, h]
        · cases o2 with
          | success r => cases r <;> simp [handleEdit, hg, h]
          | failure => simp [handleEdit, hg, h]

/-- Witness for C8: each handler called on a state passing its guard. -/
theorem handlers_return_to_idle_witness :
    (handleTitleOptimize baseState TitleOutcome.failure).1.loadingState =
      LoadingState.idle ∧
    (handleGenerate baseState (CallOutcome.success none) 3).1.loadingState =
      LoadingState.idle ∧
    (handleEdit editState CallOutcome.failure 4).1.loadingState =
      LoadingState.idle :=
  ⟨(handlers_return_to_idle baseState TitleOutcome.failure
      (CallOutcome.success none) CallOutcome.failure 3 4).1 (by decide),
    (handlers_return_to_idle baseState TitleOutcome.failure
      (CallOutcome.success none) CallOutcome.failure 3 4).2.1 (by decide),
    (handlers_return_to_idle editState TitleOutcome.failure
      (CallOutcome.success none) CallOutcome.failure 3 4).2.2 (by decide)⟩

/-- C9: while the workflow state is not idle the generate trigger is
rejected at the UI boundary: the whole state — loading flag, artifact and
error included — is unchanged and no request is dispatched. -/
theorem triggerGenerate_nonidle_noop (s : StudioState)
    (h : s.loadingState ≠ LoadingState.idle) (outcome : CallOutcome)
    (now : Nat) :
    triggerGenerate s outcome now = (s, false) := by
  simp [triggerGenerate, generateButtonDisabled, h]

/-- Witness for C9 while an image generation is in flight. -/
theorem triggerGenerate_nonidle_noop_witness :
    triggerGenerate
        { baseState with loadingState := LoadingState.generatingImage }
        (CallOutcome.success (some "B")) 7 =
      ({ baseState with loadingState := LoadingState.generatingImage },
        false) :=
  triggerGenerate_nonidle_noop
    { baseState with loadingState := LoadingState.generatingImage }
    (by decide) (CallOutcome.success (some "B")) 7

/-- C10: with a non-empty prompt, a generation attempt whose call returns
null or raises leaves the artifact — and every other field — unchanged
except the error slot, which receives the corresponding message, and the
loading flag, which returns to idle. -/
theorem handleGenerate_failure_preserves_artifact (s : StudioState)
    (h : ¬ jsTrim s.prompt = "") (o : CallOutcome) (now : Nat)
    (ho : o = CallOutcome.success none ∨ o = CallOutcome.failure) :
    (handleGenerate s o now).1.generatedImage = s.generatedImage ∧
    ∃ msg : String,
      (handleGenerate s o now).1 =
        { s with error := some msg, loadingState := LoadingState.idle } := by
  rcases ho with rfl | rfl
  · exact ⟨by simp [handleGenerate, h], "No image generated.",
      by simp [handleGenerate, h]⟩
  · exact ⟨by simp [handleGenerate, h],
      "Generation failed. Try a simpler prompt or fewer references.",
      by simp [handleGenerate, h]⟩

/-- Witness for C10: a null result over a previously held artifact. -/
theorem handleGenerate_failure_preserves_artifact_witness :
    (handleGenerate { baseState with generatedImage := some sampleArtifact }
        (CallOutcome.success none) 7).1.generatedImage =
      some sampleArtifact ∧
    ∃ msg : String,
      (handleGenerate { baseState with generatedImage := some sampleArtifact }
          (CallOutcome.success none) 7).1 =
        { baseState with
            generatedImage := some sampleArtifact
            error := some msg
            loadingState := LoadingState.idle } :=
  handleGenerate_failure_preserves_artifact
    { baseState with generatedImage := some sampleArtifact } (by decide)
    (CallOutcome.success none) 7 (Or.inl rfl)

/-- C1 fails on the code: when the edit call resolves with null the handler
sets no error at all — the error slot, cleared at the start of the attempt,
still holds none rather than the claimed message "Editing failed.". -/
theorem handleEdit_null_no_error_counterexample :
    (handleEdit editState (CallOutcome.success none) 9).1.error ≠
      some "Editing failed." := by
  decide

/-- C1 amended: when the edit call succeeds but returns null, the artifact
and the edit-instruction field are left unchanged and the workflow returns
to idle, but no error is recorded: the error slot ends as none, the message
"Editing failed." being set only when the call raises. -/
theorem handleEdit_null_result (s : StudioState) (img : GeneratedImage)
    (himg : s.generatedImage = some img) (h : ¬ jsTrim s.editPrompt = "")
    (now : Nat) :
    (handleEdit s (CallOutcome.success none) now).1 =
      { s with error := none, loadingState := LoadingState.idle } := by
  simp [handleEdit, himg, h]

/-- Witness for the amended C1 at a concrete edit state. -/
theorem handleEdit_null_result_witness :
    (handleEdit editState (CallOutcome.success none) 9).1 =
      { editState with error := none, loadingState := LoadingState.idle } :=
  handleEdit_null_result editState sampleArtifact rfl (by decide) 9

/-- C2 fails on the code: every handler clears the error slot at the start
of the attempt, so a stale error does not survive a successful title
optimization. -/
theorem error_not_sticky_counterexample :
    (handleTitleOptimize { baseState with error := some "old error" }
        (TitleOutcome.success ["Japan in 48 Hours"])).1.error ≠
      some "old error" := by
  decide

/-- C2 amended: each handler sets the error slot to none at the start of
every attempt that passes its own precondition, so after a successful
operation the error is none and after a failed one it holds exactly the
newly set message — a previously recorded error never persists through an
attempt, whatever it was. Each conjunct carries only the precondition of
its own handler. -/
theorem error_cleared_at_attempt_start (s : StudioState)
    (sugg : List String) (b1 b2 : String) (n1 n2 : Nat) :
    (¬ jsTrim s.title = "" →
      (handleTitleOptimize s (TitleOutcome.success sugg)).1.error = none ∧
      (handleTitleOptimize s TitleOutcome.failure).1.error =
        some "Failed to optimize title. Please try again.") ∧
    (¬ jsTrim s.prompt = "" →
      (handleGenerate s (CallOutcome.success (some b1)) n1).1.error = none ∧
      (handleGenerate s CallOutcome.failure n1).1.error =
        some "Generation failed. Try a simpler prompt or fewer references.") ∧
    ((∃ img, s.generatedImage = some img) → ¬ jsTrim s.editPrompt = "" →
      (handleEdit s (CallOutcome.success (some b2)) n2).1.error = none ∧
      (handleEdit s CallOutcome.failure n2).1.error =
        some "Editing failed.") := by
  refine ⟨fun ht => ?_, fun hp => ?_, fun himg he => ?_⟩
  · exact ⟨by simp [handleTitleOptimize, ht],
      by simp [handleTitleOptimize, ht]⟩
  · exact ⟨by simp [handleGenerate, hp], by simp [handleGenerate, hp]⟩
  · obtain ⟨img, himg⟩ := himg
    exact ⟨by simp [handleEdit, himg, he], by simp [handleEdit, himg, he]⟩

/-- Witness for the amended C2 at a state carrying a stale error. -/
theorem error_cleared_at_attempt_start_witness :
    ((handleTitleOptimize { editState with error := some "stale" }
        (TitleOutcome.success ["Japan in 48 Hours"])).1.error = none ∧
      (handleTitleOptimize { editState with error := some "stale" }
        TitleOutcome.failure).1.error =
        some "Failed to optimize title. Please try again.") ∧
    ((handleGenerate { editState with error := some "stale" }
        (CallOutcome.success (some "B1")) 3).1.error = none ∧
      (handleGenerate { editState with error := some "stale" }
        CallOutcome.failure 3).1.error =
        some "Generation failed. Try a simpler prompt or fewer references.") ∧
    ((handleEdit { editState with error := some "stale" }
        (CallOutcome.success (some "B2")) 4).1.error = none ∧
      (handleEdit { editState with error := some "stale" }
        CallOutcome.failure 4).1.error =
        some "Editing failed.") :=
  ⟨(error_cleared_at_attempt_start { editState with error := some "stale" }
      ["Japan in 48 Hours"] "B1" "B2" 3 4).1 (by decide),
    (error_cleared_at_attempt_start { editState with error := some "stale" }
      ["Japan in 48 Hours"] "B1" "B2" 3 4).2.1 (by decide),
    (error_cleared_at_attempt_start { editState with error := some "stale" }
      ["Japan in 48 Hours"] "B1" "B2" 3 4).2.2 ⟨sampleArtifact, rfl⟩
      (by decide)⟩

end TubeThumb
